import Mathlib

/-!
Shallow embedding of the TopHat Playwright automation core
(src/tophat_scripts_typescript/common/lib.ts) and verification of the
specification claims about it.

The embedding covers the two components of the core:

* the assertion evaluator, method validateElementFromData of class
  PlaywrightManager: the browser page is modelled as an oracle mapping a
  locator string to either a thrown error or an element handle carrying the
  results of the isVisible and textContent round trips; the YAML file load is
  modelled as an already-parsed input that records whether the read or parse
  threw and whether the top-level elements key is present;

* the session controller, methods openUrl and teardown of PlaywrightManager:
  the session state is the browser, context and page fields (null until
  acquired), the environment is an oracle giving the result of every browser
  round trip (launch, newContext, newPage, goto, close calls), and each
  operation additionally returns the ordered trace of engine calls it made,
  so that ordering and side-effect claims can be stated.

Errors are untyped in the TypeScript source; the inductive Err tags each
throw site with the taxonomy name the specification gives it.
-/

namespace TopHat

instance {ε α : Type} [DecidableEq ε] [DecidableEq α] : DecidableEq (Except ε α) := fun x y =>
  match x, y with
  | .error a, .error b =>
    if h : a = b then .isTrue (h ▸ rfl) else .isFalse (fun hh => h (Except.error.inj hh))
  | .error _, .ok _ => .isFalse Except.noConfusion
  | .ok _, .error _ => .isFalse Except.noConfusion
  | .ok a, .ok b =>
    if h : a = b then .isTrue (h ▸ rfl) else .isFalse (fun hh => h (Except.ok.inj hh))

/-- Error taxonomy from the spec, attached to the throw sites of the source.
The source throws untyped Error values; the tag records which kind of
failure the environment or the code produced. -/
inductive Err where
  | configuration (msg : String)
  | navigation (msg : String)
  | engine (msg : String)
  | pageNotInitialized (msg : String)
deriving DecidableEq, Repr

/-! ## Assertion evaluator: validateElementFromData -/

/-- interface ElementData of lib.ts: one entry of the elements mapping. -/
structure ElementData where
  locator : String
  expected_text : String
  description : Option String
deriving DecidableEq, Repr

/-- The observable behaviour of the first element matching a locator:
the results of the two engine round trips the source performs on it.
An error value models the corresponding await throwing. -/
structure ElementHandle where
  visibleResult : Except String Bool
  textContentResult : Except String (Option String)
deriving Repr

/-- A live page, as the evaluator observes it: for each locator string,
either page.locator(l).first() resolution throws, or it yields an element
handle. -/
def PageO : Type := String → Except String ElementHandle

/-- Outcome classification of one assertion (spec section 4.2). -/
inductive Status where
  | Matched
  | NotVisible
  | TextMismatch
  | ResolutionError
deriving DecidableEq, Repr

/-- AssertionOutcome of the spec: the classified result of one assertion. -/
structure AssertionOutcome where
  name : String
  description : String
  status : Status
  actualText : Option String
deriving DecidableEq, Repr

/-- JavaScript String.prototype.trim on the character list: drop whitespace
characters from the front, then from the back, touching nothing in the
interior. -/
def trimChars (cs : List Char) : List Char :=
  ((cs.dropWhile Char.isWhitespace).reverse.dropWhile Char.isWhitespace).reverse

/-- JavaScript String.prototype.trim: remove leading and trailing
whitespace only. -/
def jsTrim (s : String) : String :=
  ⟨trimChars s.data⟩

/-- JavaScript String.prototype.toLowerCase, character by character. -/
def jsToLower (s : String) : String :=
  ⟨s.data.map Char.toLower⟩

/-- The actual-text computation of lib.ts line 129:
(await element.textContent())?.trim() || aEmptyString. A null textContent
gives the empty string; otherwise the text is trimmed (a trimmed empty
string is unchanged by the || fallback). -/
def jsTrimOrEmpty (tc : Option String) : String :=
  match tc with
  | none => ""
  | some s => jsTrim s

/-- The body of one iteration of the validation loop of
validateElementFromData (lib.ts lines 110-145), classifying one element.
The surrounding try/catch maps any throw from the engine round trips to the
ResolutionError outcome and continues. -/
def evalAssertion (page : PageO) (elementName : String) (ed : ElementData) :
    AssertionOutcome :=
  let desc := ed.description.getD elementName
  match page ed.locator with
  | .error _ => ⟨elementName, desc, .ResolutionError, none⟩
  | .ok el =>
    match el.visibleResult with
    | .error _ => ⟨elementName, desc, .ResolutionError, none⟩
    | .ok false => ⟨elementName, desc, .NotVisible, none⟩
    | .ok true =>
      match el.textContentResult with
      | .error _ => ⟨elementName, desc, .ResolutionError, none⟩
      | .ok tc =>
        let actualText := jsTrimOrEmpty tc
        if actualText = ed.expected_text then
          ⟨elementName, desc, .Matched, some actualText⟩
        else
          ⟨elementName, desc, .TextMismatch, some actualText⟩

/-- One outcome per entry of the elements mapping, in entry order. -/
def evaluateOutcomes (page : PageO) (elements : List (String × ElementData)) :
    List AssertionOutcome :=
  elements.map fun e => evalAssertion page e.1 e.2

/-- Whether an outcome leaves allPassed unchanged in the loop. -/
def isMatched (o : AssertionOutcome) : Bool :=
  o.status == .Matched

/-- The allPassed accumulation of the loop of validateElementFromData:
allPassed starts true and is set to false in exactly the branches whose
outcome is not Matched (not visible, text mismatch, caught engine error). -/
def runValidationLoop (page : PageO) (elements : List (String × ElementData)) :
    Bool :=
  elements.foldl (fun allPassed e => allPassed && isMatched (evalAssertion page e.1 e.2)) true

/-- The YAML input to validateElementFromData as the evaluator sees it:
either reading or parsing the file threw, or it parsed, with the elements
mapping present or absent. Entry order is the mapping order. -/
inductive FileInput where
  | loadFailure (msg : String)
  | parsed (elements : Option (List (String × ElementData)))

/-- The try block of validateElementFromData (lib.ts lines 96-156): load the
file (a throw propagates), check the elements key (throw when absent), then
run the loop and return allPassed. -/
def validateTry (page : PageO) (input : FileInput) : Except Err Bool :=
  match input with
  | .loadFailure msg => .error (.engine msg)
  | .parsed none => .error (.configuration "YAML file must contain elements key")
  | .parsed (some elements) => .ok (runValidationLoop page elements)

/-- validateElementFromData (lib.ts lines 91-161): throws when the page
field is null; otherwise any throw from the try block is caught and turned
into a false return (lines 157-160). -/
def validateElementFromData (page : Option PageO) (input : FileInput) :
    Except Err Bool :=
  match page with
  | none => .error (.pageNotInitialized "Page not initialized. Call openUrl first.")
  | some pg =>
    match validateTry pg input with
    | .ok b => .ok b
    | .error _ => .ok false

/-! ## Session controller: openUrl and teardown -/

/-- The three nullable fields of class PlaywrightManager (lib.ts lines
20-22). The handles themselves are opaque to the claims, so each field only
records whether it is null. -/
structure Manager where
  browser : Option Unit
  context : Option Unit
  page : Option Unit
deriving DecidableEq, Repr

/-- The freshly constructed manager: all three fields null. -/
def Manager.initial : Manager := ⟨none, none, none⟩

/-- The result of every browser-engine round trip the controller can make,
fixed up front: an oracle for one run. An error value models the
corresponding await throwing. pageUrl is what page.url() reports after
navigation. -/
structure SessionEnv where
  launchChromium : Except Err Unit
  launchFirefox : Except Err Unit
  launchWebkit : Except Err Unit
  newContext : Except Err Unit
  newPage : Except Err Unit
  goto : Except Err Unit
  waitLoadState : Except Err Unit
  waitTimeout : Except Err Unit
  pageUrl : String
  closePage : Except Err Unit
  closeContext : Except Err Unit
  closeBrowser : Except Err Unit
deriving Repr

/-- The observable engine calls and log lines of a controller operation, in
the order they happen. Acquisition events are recorded only when the
corresponding await returns (a throwing launch acquires nothing); close
events are recorded when the close call is made, whether or not it throws. -/
inductive Event where
  | launched (kind : String)
  | contextCreated
  | pageCreated
  | navigated
  | urlWarning (currentUrl requestedUrl : String)
  | urlOk (currentUrl : String)
  | closePageCalled
  | closeContextCalled
  | closeBrowserCalled
  | teardownError (e : Err)
deriving DecidableEq, Repr

/-- Whether an event records the acquisition of a browser resource. -/
def Event.isAcquisition : Event → Bool
  | .launched _ => true
  | .contextCreated => true
  | .pageCreated => true
  | _ => false

/-- Whether an event records a close call on a browser resource. -/
def Event.isCloseCall : Event → Bool
  | .closePageCalled => true
  | .closeContextCalled => true
  | .closeBrowserCalled => true
  | _ => false

/-- The browser-close step of teardown (lib.ts lines 178-181), still inside
the single try block: when the field is set, close is called; a throw
propagates to the catch with the field left set, a normal return nulls the
field. -/
def closeBrowserStep (env : SessionEnv) (st : Manager) :
    Manager × List Event × Option Err :=
  match st.browser with
  | none => (st, [], none)
  | some _ =>
    match env.closeBrowser with
    | .error e => (st, [.closeBrowserCalled], some e)
    | .ok _ => ({ st with browser := none }, [.closeBrowserCalled], none)

/-- The context-close step of teardown (lib.ts lines 173-176) followed by
the browser-close step: a throw from context.close() propagates to the
catch and the browser step is not reached. -/
def closeContextStep (env : SessionEnv) (st : Manager) :
    Manager × List Event × Option Err :=
  match st.context with
  | none => closeBrowserStep env st
  | some _ =>
    match env.closeContext with
    | .error e => (st, [.closeContextCalled], some e)
    | .ok _ =>
      let r := closeBrowserStep env { st with context := none }
      (r.1, .closeContextCalled :: r.2.1, r.2.2)

/-- teardown (lib.ts lines 166-188): one try block running the page, context
and browser close steps in that order; any throw jumps to the catch, which
logs the error and returns normally, so teardown itself never throws. -/
def teardown (env : SessionEnv) (st : Manager) : Manager × List Event :=
  let r :=
    match st.page with
    | none => closeContextStep env st
    | some _ =>
      match env.closePage with
      | .error e => (st, [.closePageCalled], some e)
      | .ok _ =>
        let r := closeContextStep env { st with page := none }
        (r.1, .closePageCalled :: r.2.1, r.2.2)
  match r.2.2 with
  | none => (r.1, r.2.1)
  | some e => (r.1, r.2.1 ++ [.teardownError e])

/-- The browser kinds the switch of openUrl accepts (lib.ts lines 38-53),
compared after toLowerCase. -/
def supportedBrowserKinds : List String := ["chromium", "firefox", "webkit"]

/-- The switch on browserType.toLowerCase() of openUrl: launch the matching
engine, or throw before anything is launched. -/
def launchStep (env : SessionEnv) (browserType : String) : Except Err Unit :=
  match jsToLower browserType with
  | "chromium" => env.launchChromium
  | "firefox" => env.launchFirefox
  | "webkit" => env.launchWebkit
  | _ => .error (.configuration ("Unsupported browser type: " ++ browserType))

/-- JavaScript String.prototype.startsWith on character lists. -/
def startsWithChars : List Char → List Char → Bool
  | _, [] => true
  | [], _ :: _ => false
  | c :: cs, d :: ds => c == d && startsWithChars cs ds

/-- JavaScript String.prototype.startsWith: does s begin with pat. -/
def jsStartsWith (s pat : String) : Bool :=
  startsWithChars s.data pat.data

/-- url.replace of the single trailing slash with nothing, from the URL
check of openUrl (lib.ts line 73). -/
def stripTrailingSlash (url : String) : String :=
  match url.data.getLast? with
  | some c => if c = '/' then ⟨url.data.dropLast⟩ else url
  | none => url

/-- The try block of openUrl (lib.ts lines 28-80): launch, create context,
create page, navigate, wait for load state and settle delay, then the
non-throwing URL check. Each assignment to a manager field happens after the
corresponding await returns; a throw leaves the remaining fields untouched
and is returned for the catch to handle. -/
def openTry (env : SessionEnv) (st : Manager) (url browserType : String) :
    Manager × List Event × Except Err Unit :=
  match launchStep env browserType with
  | .error e => (st, [], .error e)
  | .ok _ =>
    let st1 := { st with browser := some () }
    let tr1 : List Event := [.launched (jsToLower browserType)]
    match env.newContext with
    | .error e => (st1, tr1, .error e)
    | .ok _ =>
      let st2 := { st1 with context := some () }
      let tr2 := tr1 ++ [.contextCreated]
      match env.newPage with
      | .error e => (st2, tr2, .error e)
      | .ok _ =>
        let st3 := { st2 with page := some () }
        let tr3 := tr2 ++ [.pageCreated]
        match env.goto with
        | .error e => (st3, tr3, .error e)
        | .ok _ =>
          match env.waitLoadState with
          | .error e => (st3, tr3 ++ [.navigated], .error e)
          | .ok _ =>
            match env.waitTimeout with
            | .error e => (st3, tr3 ++ [.navigated], .error e)
            | .ok _ =>
              let currentUrl := env.pageUrl
              let urlEvent : Event :=
                if jsStartsWith currentUrl (stripTrailingSlash url) then
                  .urlOk currentUrl
                else
                  .urlWarning currentUrl url
              (st3, tr3 ++ [.navigated, urlEvent], .ok ())

/-- openUrl (lib.ts lines 27-86): run the try block; on success return the
page, on any throw the catch logs, awaits teardown on whatever state was
acquired, and rethrows the original error unchanged. -/
def openUrl (env : SessionEnv) (st : Manager) (url browserType : String) :
    Manager × List Event × Except Err Unit :=
  let r := openTry env st url browserType
  match r.2.2 with
  | .ok _ => r
  | .error e =>
    let td := teardown env r.1
    (td.1, r.2.1 ++ td.2, .error e)

/-- The strict-nesting invariant of SessionState (spec section 3): page
non-null only if context is, context non-null only if browser is. -/
def Nested (m : Manager) : Prop :=
  (m.page ≠ none → m.context ≠ none) ∧ (m.context ≠ none → m.browser ≠ none)

instance (m : Manager) : Decidable (Nested m) := by
  unfold Nested
  infer_instance

/-! ## Helper lemmas -/

theorem foldl_and_eq_all {α : Type} (f : α → Bool) (l : List α) (b : Bool) :
    l.foldl (fun acc x => acc && f x) b = (b && l.all f) := by
  induction l generalizing b with
  | nil => simp
  | cons a l ih =>
    simp only [List.foldl_cons, List.all_cons, ih, Bool.and_assoc]

theorem all_map_comp {α β : Type} (f : α → β) (p : β → Bool) (l : List α) :
    (l.map f).all p = l.all fun a => p (f a) := by
  induction l with
  | nil => rfl
  | cons a l ih => simp [ih]

theorem runValidationLoop_eq_all (page : PageO) (elements : List (String × ElementData)) :
    runValidationLoop page elements = (evaluateOutcomes page elements).all isMatched := by
  unfold runValidationLoop evaluateOutcomes
  rw [foldl_and_eq_all, Bool.true_and, all_map_comp]

/-! ## Claims about the assertion evaluator -/

/-- C1: validateElementFromData on a parsed elements mapping returns
aggregate true if and only if every outcome of the evaluation is Matched;
a single NotVisible, TextMismatch or ResolutionError outcome anywhere in the
list forces the aggregate result false. -/
theorem validate_aggregate_true_iff_all_matched (page : PageO)
    (elements : List (String × ElementData)) :
    validateElementFromData (some page) (.parsed (some elements)) = .ok true ↔
      ∀ o ∈ evaluateOutcomes page elements, o.status = Status.Matched := by
  simp only [validateElementFromData, validateTry, Except.ok.injEq,
    runValidationLoop_eq_all, List.all_eq_true, isMatched]
  constructor
  · intro h o ho
    have := h o ho
    simpa using this
  · intro h o ho
    simpa using h o ho

/-- C3: the evaluator yields exactly one outcome per input assertion, in
input order, and the outcome at each position is a function of that
position's assertion alone, so no failure of an earlier assertion can
short-circuit the evaluation of a later one. -/
theorem evaluate_one_outcome_per_assertion_in_order (page : PageO)
    (elements : List (String × ElementData)) :
    (evaluateOutcomes page elements).length = elements.length ∧
      ∀ (i : Nat) (h : i < elements.length)
        (h2 : i < (evaluateOutcomes page elements).length),
        (evaluateOutcomes page elements).get ⟨i, h2⟩ =
          evalAssertion page (elements.get ⟨i, h⟩).1 (elements.get ⟨i, h⟩).2 := by
  constructor
  · simp [evaluateOutcomes]
  · intro i h h2
    simp [evaluateOutcomes]

/-- A page on which one specific locator fails to resolve and every other
locator yields a visible element with a fixed text. -/
def pageC3 : PageO := fun loc =>
  if loc = "button.missing" then .error "locator resolution failed"
  else .ok ⟨.ok true, .ok (some "In-Class Engagement")⟩

/-- A two-assertion input whose first assertion hits a resolution error. -/
def elementsC3 : List (String × ElementData) :=
  [("first_button", ⟨"button.missing", "In-Class Engagement", none⟩),
   ("second_button", ⟨"button.engage", "In-Class Engagement", some "engagement feature button"⟩)]

/-- C3 witness: on a concrete two-assertion input whose first assertion
fails with a resolution error, both outcomes are still produced in order and
the second one is fully evaluated. -/
theorem evaluate_one_outcome_per_assertion_witness :
    (evaluateOutcomes pageC3 elementsC3).length = 2 ∧
      (evaluateOutcomes pageC3 elementsC3).get ⟨1, by decide⟩ =
        evalAssertion pageC3 (elementsC3.get ⟨1, by decide⟩).1
          (elementsC3.get ⟨1, by decide⟩).2 ∧
      ((evaluateOutcomes pageC3 elementsC3).get ⟨0, by decide⟩).status = .ResolutionError ∧
      ((evaluateOutcomes pageC3 elementsC3).get ⟨1, by decide⟩).status = .Matched := by
  have h := evaluate_one_outcome_per_assertion_in_order pageC3 elementsC3
  exact ⟨h.1.trans (by decide), h.2 1 (by decide) (by decide), by decide, by decide⟩

/-- C4: for a visible resolved element the check compares the trim-only
normalized text content with expectedText for exact string equality; the
source text with surrounding spaces matches, while an internal double space
is a real mismatch, since trimming touches only leading and trailing
whitespace. -/
theorem text_check_trim_only_exact_equality :
    (∀ (elementName : String) (ed : ElementData) (s : String),
        (evalAssertion (fun _ => .ok ⟨.ok true, .ok (some s)⟩) elementName ed).status =
          (if jsTrim s = ed.expected_text then Status.Matched else Status.TextMismatch)) ∧
      jsTrim " Create Your Account " = "Create Your Account" ∧
      jsTrim "Create  Your Account" = "Create  Your Account" ∧
      (evalAssertion (fun _ => .ok ⟨.ok true, .ok (some " Create Your Account ")⟩)
          "create_account" ⟨"a.signup", "Create Your Account", none⟩).status = .Matched ∧
      (evalAssertion (fun _ => .ok ⟨.ok true, .ok (some "Create  Your Account")⟩)
          "create_account" ⟨"a.signup", "Create Your Account", none⟩).status = .TextMismatch := by
  refine ⟨?_, by decide, by decide, by decide, by decide⟩
  intro elementName ed s
  by_cases h : jsTrim s = ed.expected_text <;>
    simp [evalAssertion, jsTrimOrEmpty, h]

/-- A page every locator of which yields a visible element. -/
def pageC5 : PageO := fun _ => .ok ⟨.ok true, .ok (some "Interactive Content")⟩

/-- C5 counterexample: when the parsed input lacks the elements key,
validateElementFromData returns the ordinary failing aggregate result false
to the caller instead of raising: the missing-key throw is caught inside the
method. -/
theorem missing_elements_key_returns_false_not_raised :
    validateElementFromData (some pageC5) (FileInput.parsed none) = .ok false := rfl

/-- C5 amended: a parsed input without the elements key makes the try block
of validateElementFromData throw a configuration error before the
evaluation loop runs, but the catch of the method converts that throw into
an aggregate false return, so no error reaches the caller. -/
theorem missing_elements_key_throw_caught_to_false (page : PageO) :
    validateTry page (.parsed none) =
        .error (.configuration "YAML file must contain elements key") ∧
      validateElementFromData (some page) (.parsed none) = .ok false :=
  ⟨rfl, rfl⟩

/-- C10: validateElementFromData raises exactly when the page field is
null; with a live page every failure mode of the input, an unreadable or
unparsable file as well as a missing elements key, yields an ok false
return instead of a propagated error. -/
theorem validate_raises_iff_page_null (page : Option PageO) (input : FileInput) :
    ((∃ e, validateElementFromData page input = .error e) ↔ page = none) ∧
      ∀ (pg : PageO) (msg : String),
        validateElementFromData (some pg) (.loadFailure msg) = .ok false ∧
          validateElementFromData (some pg) (.parsed none) = .ok false := by
  refine ⟨?_, fun pg msg => ⟨rfl, rfl⟩⟩
  constructor
  · intro ⟨e, he⟩
    cases page with
    | none => rfl
    | some pg =>
      exfalso
      simp only [validateElementFromData] at he
      cases h : validateTry pg input <;> rw [h] at he <;> exact Except.noConfusion he
  · intro h
    subst h
    exact ⟨_, rfl⟩

/-! ## Helper lemmas about teardown and openUrl -/

theorem teardown_initial (env : SessionEnv) :
    teardown env Manager.initial = (Manager.initial, []) := rfl

theorem teardown_events_not_acquisition (env : SessionEnv) (st : Manager) :
    ∀ ev ∈ (teardown env st).2, ev.isAcquisition = false := by
  obtain ⟨b, c, p⟩ := st
  cases p <;> cases c <;> cases b <;>
    rcases hp : env.closePage with e1 | u1 <;>
    rcases hc : env.closeContext with e2 | u2 <;>
    rcases hb : env.closeBrowser with e3 | u3 <;>
    intro ev h <;>
    simp only [teardown, closeContextStep, closeBrowserStep, hp, hc, hb] at h <;>
    cases ev <;> simp_all [Event.isAcquisition]

theorem teardown_state_all_ok (env : SessionEnv) (st : Manager)
    (hp : env.closePage = .ok ()) (hc : env.closeContext = .ok ())
    (hb : env.closeBrowser = .ok ()) :
    (teardown env st).1 = Manager.initial := by
  obtain ⟨b, c, p⟩ := st
  cases p <;> cases c <;> cases b <;>
    simp [teardown, closeContextStep, closeBrowserStep, hp, hc, hb, Manager.initial]

theorem nested_teardown (env : SessionEnv) (st : Manager) (h : Nested st) :
    Nested (teardown env st).1 := by
  obtain ⟨b, c, p⟩ := st
  cases p <;> cases c <;> cases b <;>
    rcases hp : env.closePage with e1 | u1 <;>
    rcases hc : env.closeContext with e2 | u2 <;>
    rcases hb : env.closeBrowser with e3 | u3 <;>
    simp_all [teardown, closeContextStep, closeBrowserStep, Nested]

theorem nested_openTry (env : SessionEnv) (st : Manager) (url bt : String)
    (h : Nested st) : Nested (openTry env st url bt).1 := by
  unfold openTry
  cases hl : launchStep env bt with
  | error e => exact h
  | ok u =>
    cases hc : env.newContext with
    | error e => exact ⟨fun hp => h.1 hp, fun _ => by simp⟩
    | ok u2 =>
      cases hp : env.newPage with
      | error e => exact ⟨fun _ => by simp, fun _ => by simp⟩
      | ok u3 =>
        cases hg : env.goto with
        | error e => exact ⟨fun _ => by simp, fun _ => by simp⟩
        | ok u4 =>
          cases hw : env.waitLoadState with
          | error e => exact ⟨fun _ => by simp, fun _ => by simp⟩
          | ok u5 =>
            cases ht : env.waitTimeout with
            | error e => exact ⟨fun _ => by simp, fun _ => by simp⟩
            | ok u6 => exact ⟨fun _ => by simp, fun _ => by simp⟩

theorem nested_openUrl (env : SessionEnv) (st : Manager) (url bt : String)
    (h : Nested st) : Nested (openUrl env st url bt).1 := by
  unfold openUrl
  cases hr : (openTry env st url bt).2.2 with
  | ok u =>
    simp only [hr]
    exact nested_openTry env st url bt h
  | error e =>
    simp only [hr]
    exact nested_teardown env _ (nested_openTry env st url bt h)

theorem launchStep_unsupported (env : SessionEnv) (bt : String)
    (h : jsToLower bt ∉ supportedBrowserKinds) :
    launchStep env bt = .error (.configuration ("Unsupported browser type: " ++ bt)) := by
  simp only [supportedBrowserKinds, List.mem_cons, List.mem_singleton, not_or,
    List.not_mem_nil] at h
  unfold launchStep
  split
  · exact absurd (by assumption) h.1
  · exact absurd (by assumption) h.2.1
  · exact absurd (by assumption) h.2.2.1
  · rfl

/-! ## Claims about the session controller -/

/-- A run in which every engine round trip succeeds except page.close,
which throws. -/
def envC2 : SessionEnv :=
  ⟨.ok (), .ok (), .ok (), .ok (), .ok (), .ok (), .ok (), .ok (),
   "https://tophat.com/", .error (.engine "page close failed"), .ok (), .ok ()⟩

/-- A session state in which browser, context and page are all acquired. -/
def managerAllAcquired : Manager := ⟨some (), some (), some ()⟩

/-- C2 counterexample: on a fully acquired session whose page.close throws,
teardown never calls context.close or browser.close and leaves both fields
set: a failure at the page-close step does skip the remaining steps. -/
theorem teardown_page_close_failure_skips_remaining :
    teardown envC2 managerAllAcquired =
        (managerAllAcquired,
         [Event.closePageCalled, Event.teardownError (Err.engine "page close failed")]) ∧
      Event.closeContextCalled ∉ (teardown envC2 managerAllAcquired).2 ∧
      Event.closeBrowserCalled ∉ (teardown envC2 managerAllAcquired).2 ∧
      (teardown envC2 managerAllAcquired).1.context = some () ∧
      (teardown envC2 managerAllAcquired).1.browser = some () := by
  decide

/-- C2 amended: teardown attempts the page, context and browser closes in
that strict order and never raises (the caught failure is only logged), but
a failure releasing one resource aborts the remaining steps: when page.close
throws, teardown returns at once with the state unchanged and neither
context.close nor browser.close is attempted. -/
theorem teardown_order_and_abort_on_failure (env : SessionEnv) (st : Manager) :
    ((teardown env st).2.filter Event.isCloseCall).Sublist
        [Event.closePageCalled, Event.closeContextCalled, Event.closeBrowserCalled] ∧
      ∀ e, env.closePage = .error e → st.page = some () →
        teardown env st = (st, [Event.closePageCalled, Event.teardownError e]) := by
  constructor
  · obtain ⟨b, c, p⟩ := st
    cases p <;> cases c <;> cases b <;>
      rcases hp : env.closePage with e1 | u1 <;>
      rcases hc : env.closeContext with e2 | u2 <;>
      rcases hb : env.closeBrowser with e3 | u3 <;>
      simp [teardown, closeContextStep, closeBrowserStep, hp, hc, hb,
        List.filter, Event.isCloseCall]
  · intro e hp hpage
    obtain ⟨b, c, p⟩ := st
    simp only at hpage
    subst hpage
    simp [teardown, hp]

/-- C2 witness: the amended theorem applied to the concrete run whose
page.close throws on a fully acquired session. -/
theorem teardown_order_and_abort_witness :
    teardown envC2 managerAllAcquired =
        (managerAllAcquired,
         [Event.closePageCalled, Event.teardownError (Err.engine "page close failed")]) ∧
      ((teardown envC2 managerAllAcquired).2.filter Event.isCloseCall).Sublist
        [Event.closePageCalled, Event.closeContextCalled, Event.closeBrowserCalled] := by
  have h := teardown_order_and_abort_on_failure envC2 managerAllAcquired
  exact ⟨h.2 _ rfl rfl, h.1⟩

/-- A run in which every engine round trip succeeds except context.close,
which throws. -/
def envC8 : SessionEnv :=
  ⟨.ok (), .ok (), .ok (), .ok (), .ok (), .ok (), .ok (), .ok (),
   "https://tophat.com/", .ok (), .error (.engine "context close failed"), .ok ()⟩

/-- C8 counterexample: when context.close throws during teardown of a fully
acquired session, teardown completes (returns normally) with the context and
browser fields still non-null, so completion of close does not imply all
three fields are null. -/
theorem teardown_completes_with_resources_left :
    (teardown envC8 managerAllAcquired).1.page = none ∧
      (teardown envC8 managerAllAcquired).1.context = some () ∧
      (teardown envC8 managerAllAcquired).1.browser = some () := by
  decide

/-- C8 amended: the strict-nesting invariant (page non-null only if context
is, context non-null only if browser is) is preserved by teardown and by
openUrl from every nested state; and when no close call fails, teardown
leaves all three fields null. When a close call throws, teardown can
complete with later resources still held. -/
theorem nesting_preserved_and_clean_close_nulls (env : SessionEnv) (st : Manager)
    (url bt : String) :
    (Nested st → Nested (teardown env st).1) ∧
      (Nested st → Nested (openUrl env st url bt).1) ∧
      (env.closePage = .ok () → env.closeContext = .ok () → env.closeBrowser = .ok () →
        (teardown env st).1 = Manager.initial) :=
  ⟨nested_teardown env st, nested_openUrl env st url bt,
    fun hp hc hb => teardown_state_all_ok env st hp hc hb⟩

/-- A run in which every engine round trip succeeds. -/
def envAllOkSession : SessionEnv :=
  ⟨.ok (), .ok (), .ok (), .ok (), .ok (), .ok (), .ok (), .ok (),
   "https://tophat.com/", .ok (), .ok (), .ok ()⟩

/-- C8 witness: on a fully successful run, the state after openUrl from the
fresh manager is nested, and teardown of a fully acquired session nulls all
three fields. -/
theorem nesting_preserved_witness :
    Nested (openUrl envAllOkSession Manager.initial "https://www.tophat.com/" "chromium").1 ∧
      (teardown envAllOkSession managerAllAcquired).1 = Manager.initial := by
  have h1 := nesting_preserved_and_clean_close_nulls envAllOkSession Manager.initial
    "https://www.tophat.com/" "chromium"
  have h2 := nesting_preserved_and_clean_close_nulls envAllOkSession managerAllAcquired
    "https://www.tophat.com/" "chromium"
  exact ⟨h1.2.1 (by decide), h2.2.2 rfl rfl rfl⟩

/-- C6: for every browserType whose lower-cased form is outside the
supported set, openUrl fails with the configuration error before any
resource is acquired: the trace holds no acquisition event, and from the
fresh manager the state is unchanged and the trace empty. -/
theorem unsupported_browser_config_error_before_acquisition (env : SessionEnv)
    (st : Manager) (url bt : String) (h : jsToLower bt ∉ supportedBrowserKinds) :
    (openUrl env st url bt).2.2 =
        .error (.configuration ("Unsupported browser type: " ++ bt)) ∧
      (∀ ev ∈ (openUrl env st url bt).2.1, ev.isAcquisition = false) ∧
      openUrl env Manager.initial url bt =
        (Manager.initial, [], .error (.configuration ("Unsupported browser type: " ++ bt))) := by
  have hl := launchStep_unsupported env bt h
  refine ⟨?_, ?_, ?_⟩
  · simp [openUrl, openTry, hl]
  · intro ev hev
    simp only [openUrl, openTry, hl] at hev
    simp only [List.nil_append] at hev
    exact teardown_events_not_acquisition env st ev hev
  · simp [openUrl, openTry, hl, teardown_initial]

/-- C6 witness: the theorem applied to a concrete unsupported kind on a
concrete run. -/
theorem unsupported_browser_witness :
    openUrl envAllOkSession Manager.initial "https://www.tophat.com/" "safari" =
      (Manager.initial, [], .error (.configuration "Unsupported browser type: safari")) :=
  (unsupported_browser_config_error_before_acquisition envAllOkSession Manager.initial
    "https://www.tophat.com/" "safari" (by decide)).2.2

/-- C7: on every failure during launch, context creation, page creation or
navigation, openUrl tears down exactly the partial state acquired so far,
in reverse acquisition order, and re-raises the original failure, a
NavigationError, to the caller; with succeeding close calls the final state
is the fresh all-null manager. -/
theorem open_failure_teardown_then_reraise (env : SessionEnv) (url m : String)
    (hp : env.closePage = .ok ()) (hc : env.closeContext = .ok ())
    (hb : env.closeBrowser = .ok ()) :
    (env.launchChromium = .error (.navigation m) →
        openUrl env Manager.initial url "chromium" =
          (Manager.initial, [], .error (.navigation m))) ∧
      (env.launchChromium = .ok () → env.newContext = .error (.navigation m) →
        openUrl env Manager.initial url "chromium" =
          (Manager.initial, [.launched "chromium", .closeBrowserCalled],
           .error (.navigation m))) ∧
      (env.launchChromium = .ok () → env.newContext = .ok () →
        env.newPage = .error (.navigation m) →
        openUrl env Manager.initial url "chromium" =
          (Manager.initial,
           [.launched "chromium", .contextCreated, .closeContextCalled, .closeBrowserCalled],
           .error (.navigation m))) ∧
      (env.launchChromium = .ok () → env.newContext = .ok () → env.newPage = .ok () →
        env.goto = .error (.navigation m) →
        openUrl env Manager.initial url "chromium" =
          (Manager.initial,
           [.launched "chromium", .contextCreated, .pageCreated, .closePageCalled,
            .closeContextCalled, .closeBrowserCalled],
           .error (.navigation m))) := by
  obtain ⟨f1, f2, f3, f4, f5, f6, f7, f8, f9, f10, f11, f12⟩ := env
  dsimp only at hp hc hb
  subst hp hc hb
  refine ⟨?_, ?_, ?_, ?_⟩
  · intro h1
    dsimp only at h1
    subst h1
    rfl
  · intro h1 h2
    dsimp only at h1 h2
    subst h1 h2
    rfl
  · intro h1 h2 h3
    dsimp only at h1 h2 h3
    subst h1 h2 h3
    rfl
  · intro h1 h2 h3 h4
    dsimp only at h1 h2 h3 h4
    subst h1 h2 h3 h4
    rfl

/-- A run whose navigation fails while everything else succeeds. -/
def envC7 : SessionEnv :=
  ⟨.ok (), .ok (), .ok (), .ok (), .ok (), .error (.navigation "navigation timeout"),
   .ok (), .ok (), "https://tophat.com/", .ok (), .ok (), .ok ()⟩

/-- C7 witness: the theorem applied to the concrete run whose goto fails
after browser, context and page were acquired. -/
theorem open_failure_teardown_witness :
    openUrl envC7 Manager.initial "https://www.tophat.com/" "chromium" =
      (Manager.initial,
       [.launched "chromium", .contextCreated, .pageCreated, .closePageCalled,
        .closeContextCalled, .closeBrowserCalled],
       .error (.navigation "navigation timeout")) :=
  (open_failure_teardown_then_reraise envC7 "https://www.tophat.com/"
    "navigation timeout" rfl rfl rfl).2.2.2 rfl rfl rfl rfl

/-- Whether an event is the URL-mismatch warning log line. -/
def Event.isUrlWarning : Event → Bool
  | .urlWarning _ _ => true
  | _ => false

/-- A fully successful run whose resolved URL properly extends the
requested URL. -/
def envC9x : SessionEnv :=
  ⟨.ok (), .ok (), .ok (), .ok (), .ok (), .ok (), .ok (), .ok (),
   "https://www.tophat.com/pricing", .ok (), .ok (), .ok ()⟩

/-- C9 counterexample: a resolved URL that differs from the requested URL by
more than a trailing slash, namely a proper extension of it, produces no
warning at all: the source check is a prefix check, not an equality up to a
trailing slash, so not every mismatch is logged. -/
theorem url_mismatch_beyond_slash_not_warned :
    stripTrailingSlash "https://www.tophat.com/pricing" ≠
        stripTrailingSlash "https://www.tophat.com/" ∧
      openUrl envC9x Manager.initial "https://www.tophat.com/" "chromium" =
        (⟨some (), some (), some ()⟩,
         [.launched "chromium", .contextCreated, .pageCreated, .navigated,
          .urlOk "https://www.tophat.com/pricing"],
         .ok ()) ∧
      (openUrl envC9x Manager.initial "https://www.tophat.com/" "chromium").2.1.any
          Event.isUrlWarning = false := by
  decide

/-- C9 amended: after successful navigation, openUrl checks whether the
resolved URL starts with the requested URL stripped of its trailing slash;
exactly when that prefix check fails it logs a non-fatal warning, never
raises, and still returns the page with the session fully acquired. A
resolved URL that merely extends the requested one passes without warning. -/
theorem url_check_warning_nonfatal (env : SessionEnv) (url : String)
    (h1 : env.launchChromium = .ok ()) (h2 : env.newContext = .ok ())
    (h3 : env.newPage = .ok ()) (h4 : env.goto = .ok ())
    (h5 : env.waitLoadState = .ok ()) (h6 : env.waitTimeout = .ok ()) :
    openUrl env Manager.initial url "chromium" =
      (⟨some (), some (), some ()⟩,
       [.launched "chromium", .contextCreated, .pageCreated, .navigated,
        if jsStartsWith env.pageUrl (stripTrailingSlash url) then Event.urlOk env.pageUrl
        else Event.urlWarning env.pageUrl url],
       .ok ()) := by
  obtain ⟨f1, f2, f3, f4, f5, f6, f7, f8, f9, f10, f11, f12⟩ := env
  dsimp only at h1 h2 h3 h4 h5 h6 ⊢
  subst h1 h2 h3 h4 h5 h6
  rfl

/-- A fully successful run whose resolved URL dropped the www subdomain. -/
def envC9w : SessionEnv :=
  ⟨.ok (), .ok (), .ok (), .ok (), .ok (), .ok (), .ok (), .ok (),
   "https://tophat.com/", .ok (), .ok (), .ok ()⟩

/-- C9 witness: the amended theorem applied to the redirect run: the
mismatching resolved URL is logged as a warning while the call still
succeeds and the page is held. -/
theorem url_check_warning_witness :
    openUrl envC9w Manager.initial "https://www.tophat.com/" "chromium" =
      (⟨some (), some (), some ()⟩,
       [.launched "chromium", .contextCreated, .pageCreated, .navigated,
        .urlWarning "https://tophat.com/" "https://www.tophat.com/"],
       .ok ()) := by
  have h := url_check_warning_nonfatal envC9w "https://www.tophat.com/"
    rfl rfl rfl rfl rfl rfl
  exact h.trans (by decide)

end TopHat
